import Mathlib

/-!
Shallow embedding of the credential / account-lifecycle service
(`auth-service`): the Account record (`src/models/user.model.js`),
the authentication controller (`src/controllers/auth.controller.js`)
and the administrative controller (`src/controllers/admin.controller.js`).

External collaborators are modelled explicitly:
* the clock (`Date.now()`) is a `now : Nat` argument (milliseconds);
* randomness (`crypto.randomBytes`, `Math.random`) is a caller-supplied
  clear token / OTP code argument;
* the one-way digests (`crypto.createHash("sha256")`, bcrypt) are modelled
  as injective tagging functions — the service only ever compares digests
  for equality, so any injective deterministic function is a faithful model;
* the e-mail transport is a boolean "send succeeded" argument where its
  failure is observable (forgot-password); where the controller swallows
  the failure it has no observable effect and is omitted;
* the document store is a `List User`, queried with `List.find?` in the
  same field order as the Mongo queries.

Request-shape validation (`express-validator`) and HTTP transport are
outside the modelled controllers; controllers are modelled from the first
statement after the `validationResult` guard.
-/

namespace AuthService

/-- The role enum of `UserSchema.role`: `["user", "admin", "superadmin"]`. -/
inductive Role where
  | user
  | admin
  | superadmin
deriving DecidableEq, BEq, Repr

instance : LawfulBEq Role where
  eq_of_beq := by intro a b h; cases a <;> cases b <;> first | rfl | exact absurd h (by decide)
  rfl := by intro a; cases a <;> rfl

/-- String form of a role, as interpolated into response messages. -/
def Role.asString : Role → String
  | .user => "user"
  | .admin => "admin"
  | .superadmin => "superadmin"

/-- JS template interpolation of an optional role (`undefined` prints as "undefined"). -/
def showOptRole : Option Role → String
  | none => "undefined"
  | some r => r.asString

/-- Model of the SHA-256 hex digest used to store activation and reset tokens
(`crypto.createHash("sha256").update(t).digest("hex")`): a deterministic
injective tag.  The service only compares digests for equality. -/
def sha256Hex (s : String) : String := "sha256:" ++ s

/-- Model of bcrypt password hashing (pre-save hook of `user.model.js`):
a deterministic injective tag; `bcrypt.compare(entered, stored)` is modelled
as `bcryptHash entered = stored`. -/
def bcryptHash (s : String) : String := "bcrypt:" ++ s

/-- `config.security.activationExpire`: 24h in milliseconds. -/
def activationExpireMs : Nat := 24 * 60 * 60 * 1000

/-- `config.security.passwordResetExpire`: 1h in milliseconds. -/
def passwordResetExpireMs : Nat := 60 * 60 * 1000

/-- OTP lifetime (`generateOTP`): 10 minutes in milliseconds. -/
def otpExpireMs : Nat := 10 * 60 * 1000

/-- Lockout window (`incrementLoginAttempts`): 15 minutes in milliseconds. -/
def lockoutDuration : Nat := 15 * 60 * 1000

/-- The Account record persisted by the credential store (`UserSchema` of
`user.model.js`).  `password` holds the bcrypt digest at rest (the pre-save
hook hashes on every assignment site, made explicit here).  `updatedAt` is
stamped by the pre-save hook, so every save site sets it to `now`.
Undefined optional fields are `none`. -/
structure User where
  id : Nat
  username : String
  email : String
  password : String
  role : Role := .user
  isActive : Bool := false
  emailVerified : Bool := false
  activationToken : Option String := none
  activationExpire : Option Nat := none
  resetPasswordToken : Option String := none
  resetPasswordExpire : Option Nat := none
  otpCode : Option String := none
  otpExpiresAt : Option Nat := none
  otpVerified : Bool := false
  lastLogin : Option Nat := none
  failedLoginAttempts : Nat := 0
  lockedUntil : Option Nat := none
  updatedAt : Nat := 0
deriving DecidableEq, Repr

/-- `matchPassword`: `bcrypt.compare(enteredPassword, this.password)`. -/
def User.matchPassword (u : User) (entered : String) : Bool :=
  bcryptHash entered == u.password

/-- `isAccountLocked`: `this.lockedUntil && this.lockedUntil > Date.now()`. -/
def User.isAccountLocked (u : User) (now : Nat) : Bool :=
  match u.lockedUntil with
  | some t => decide (now < t)
  | none => false

/-- `incrementLoginAttempts`: bump the counter, lock for 15 minutes once it
reaches 5, and save (stamping `updatedAt`). -/
def User.incrementLoginAttempts (u : User) (now : Nat) : User :=
  let n := u.failedLoginAttempts + 1
  { u with
    failedLoginAttempts := n
    lockedUntil := if 5 ≤ n then some (now + lockoutDuration) else u.lockedUntil
    updatedAt := now }

/-- `resetLoginAttempts`: zero the counter, clear the lock, stamp `lastLogin`,
and save. -/
def User.resetLoginAttempts (u : User) (now : Nat) : User :=
  { u with
    failedLoginAttempts := 0
    lockedUntil := none
    lastLogin := some now
    updatedAt := now }

/-- `User.findOne({ email })`. -/
def findByEmail (db : List User) (email : String) : Option User :=
  db.find? (fun u => u.email == email)

/-- `User.findById(id)`. -/
def findById (db : List User) (i : Nat) : Option User :=
  db.find? (fun u => u.id == i)

/-- `user.save()` writing back a loaded document: replace the record with the
same id. -/
def saveUser (db : List User) (u : User) : List User :=
  db.map (fun v => if v.id == u.id then u else v)

/-- `user.deleteOne()`: remove the record by id. -/
def deleteById (db : List User) (i : Nat) : List User :=
  db.filter (fun v => v.id != i)

/-- A fresh store id for `User.create` (any id unused in the store). -/
def freshId (db : List User) : Nat :=
  (db.map User.id).foldr max 0 + 1

/-- Sanitized user payload returned by login / activation / admin responses:
`{ id, username, email, role }`, plus `isActive` where the admin controller
includes it. -/
structure UserView where
  id : Nat
  username : String
  email : String
  role : Role
  isActive : Option Bool := none
deriving DecidableEq, Repr

/-- The JSON response envelope `{success, message?, ...payload}` together with
the HTTP status code.  `tokenFor`/`refreshFor` model the subject (`id`) claim
of the signed access token and of the refresh-token cookie; `none` means no
token was issued. -/
structure ApiResponse where
  status : Nat
  success : Bool
  message : Option String := none
  lockedUntil : Option Nat := none
  tokenFor : Option Nat := none
  refreshFor : Option Nat := none
  requireOtp : Bool := false
  userId : Option Nat := none
  userPayload : Option UserView := none
deriving DecidableEq, Repr

/-- `POST /api/auth/login` (`exports.login`).  `testEnv` models
`process.env.NODE_ENV === "test"`, `requireOtp` models
`process.env.REQUIRE_OTP === "true"`, `otpCode` the random OTP drawn in the
2FA branch. -/
def login (testEnv requireOtp : Bool) (db : List User) (email password otpCode : String)
    (now : Nat) : ApiResponse × List User :=
  match findByEmail db email with
  | none => ({ status := 401, success := false, message := some "Invalid credentials" }, db)
  | some u =>
    if u.isAccountLocked now then
      ({ status := 401, success := false
         message := some "Account locked due to too many failed login attempts. Try again later."
         lockedUntil := u.lockedUntil }, db)
    else if !u.matchPassword password then
      let u1 := u.incrementLoginAttempts now
      ({ status := 401, success := false, message := some "Invalid credentials" }, saveUser db u1)
    else if !u.isActive && !testEnv then
      ({ status := 403, success := false
         message := some "Account not activated. Please check your email for activation link." }, db)
    else
      let u1 := u.resetLoginAttempts now
      if requireOtp && !testEnv then
        let u2 := { u1 with
          otpCode := some otpCode
          otpExpiresAt := some (now + otpExpireMs)
          updatedAt := now }
        ({ status := 200, success := true, message := some "OTP sent to your email"
           requireOtp := true, userId := some u.id }, saveUser db u2)
      else
        ({ status := 200, success := true, tokenFor := some u.id, refreshFor := some u.id
           userPayload := some { id := u.id, username := u.username, email := u.email, role := u.role } },
         saveUser db u1)

/-- The account record built by `User.create` in `exports.register`: inactive,
hashed activation token with 24h expiry, role forced to `user` unless
`req.user` is an admin (schema defaults for the remaining fields, password
bcrypt-hashed by the pre-save hook). -/
def registeredUser (db : List User) (actingUser : Option User) (username email password : String)
    (reqRole : Option Role) (activationTokenClear : String) (now : Nat) : User :=
  { id := freshId db
    username := username
    email := email
    password := bcryptHash password
    role := match actingUser with
      | some au => if au.role == Role.admin then reqRole.getD .user else .user
      | none => .user
    activationToken := some (sha256Hex activationTokenClear)
    activationExpire := some (now + activationExpireMs)
    isActive := false
    updatedAt := now }

/-- `POST /api/auth/register` (`exports.register`).  `actingUser` is
`req.user` (`none` when no authentication middleware ran);
`activationTokenClear` is the random clear activation token. -/
def register (db : List User) (actingUser : Option User) (username email password : String)
    (reqRole : Option Role) (activationTokenClear : String) (now : Nat) :
    ApiResponse × List User :=
  match db.find? (fun u => u.email == email || u.username == username) with
  | some _ =>
    ({ status := 400, success := false
       message := some "User already exists with that email or username" }, db)
  | none =>
    ({ status := 201, success := true
       message := some "Registration successful. Please check your email to activate your account." },
     db ++ [registeredUser db actingUser username email password reqRole activationTokenClear now])

/-- The public `POST /api/auth/register` route (`auth.routes.js`) attaches no
authentication middleware before the controller, so the controller always runs
with `req.user` undefined. -/
def registerRoute (db : List User) (username email password : String) (reqRole : Option Role)
    (activationTokenClear : String) (now : Nat) : ApiResponse × List User :=
  register db none username email password reqRole activationTokenClear now

/-- `GET /api/auth/activate/:activationToken` (`exports.activateAccount`):
look up by digest of the presented token with unexpired
`activationExpire` (`$gt: Date.now()`); on match activate, verify, clear the
activation slot and auto-login. -/
def activateAccount (db : List User) (tokenClear : String) (now : Nat) :
    ApiResponse × List User :=
  let hashed := sha256Hex tokenClear
  match db.find? (fun u =>
      u.activationToken == some hashed &&
      (match u.activationExpire with
       | some e => decide (now < e)
       | none => false)) with
  | none =>
    ({ status := 400, success := false, message := some "Invalid or expired activation token" }, db)
  | some u =>
    let u1 := { u with
      isActive := true
      emailVerified := true
      activationToken := none
      activationExpire := none
      updatedAt := now }
    ({ status := 200, success := true, message := some "Account activated successfully"
       tokenFor := some u.id, refreshFor := some u.id
       userPayload := some { id := u.id, username := u.username, email := u.email, role := u.role } },
     saveUser db u1)

/-- `POST /api/auth/forgot-password` (`exports.forgotPassword`).
`resetTokenClear` is the random clear reset token; `emailSendOk` models
whether `sendPasswordResetEmail` succeeded.  On send failure the reset slot is
rolled back to unset and a 500 is returned. -/
def forgotPassword (db : List User) (email resetTokenClear : String) (emailSendOk : Bool)
    (now : Nat) : ApiResponse × List User :=
  match findByEmail db email with
  | none =>
    ({ status := 200, success := true
       message := some "If your email is registered, you will receive a password reset link" }, db)
  | some u =>
    let u1 := { u with
      resetPasswordToken := some (sha256Hex resetTokenClear)
      resetPasswordExpire := some (now + passwordResetExpireMs)
      updatedAt := now }
    let db1 := saveUser db u1
    if emailSendOk then
      ({ status := 200, success := true
         message := some "If your email is registered, you will receive a password reset link" }, db1)
    else
      let u2 := { u1 with
        resetPasswordToken := none
        resetPasswordExpire := none
        updatedAt := now }
      ({ status := 500, success := false, message := some "Email could not be sent" },
       saveUser db1 u2)

/-- `PUT /api/auth/reset-password/:resetToken` (`exports.resetPassword`):
look up by digest of the presented token with unexpired
`resetPasswordExpire`; on match replace the password hash, clear the reset
slot, and activate + verify the account if it was inactive.  The notification
e-mail is best-effort and has no observable effect. -/
def resetPassword (db : List User) (resetTokenClear newPassword : String) (now : Nat) :
    ApiResponse × List User :=
  let hashed := sha256Hex resetTokenClear
  match db.find? (fun u =>
      u.resetPasswordToken == some hashed &&
      (match u.resetPasswordExpire with
       | some e => decide (now < e)
       | none => false)) with
  | none =>
    ({ status := 400, success := false, message := some "Invalid or expired token" }, db)
  | some u =>
    let u1 := { u with
      password := bcryptHash newPassword
      resetPasswordToken := none
      resetPasswordExpire := none
      updatedAt := now }
    let u2 := if u1.isActive then u1 else { u1 with isActive := true, emailVerified := true }
    ({ status := 200, success := true, message := some "Password reset successful" },
     saveUser db u2)

/-- `validateRoleAssignment(adminRole, targetRole)` of `admin.controller.js`:
superadmin may assign anything; admin only a present role in
`["user", "admin"]` (`includes(undefined)` is false); everyone else nothing. -/
def validateRoleAssignment (adminRole : Role) (targetRole : Option Role) : Bool :=
  if adminRole == Role.superadmin then
    true
  else if adminRole == Role.admin then
    match targetRole with
    | some .user => true
    | some .admin => true
    | _ => false
  else
    false

/-- The account record built by `User.create` in `exports.createUser`: role
defaults to `user`, `isActive` and `emailVerified` default to `true` when the
request omits `isActive` (schema defaults for the remaining fields). -/
def adminCreatedUser (db : List User) (username email password : String)
    (reqRole : Option Role) (reqIsActive : Option Bool) (now : Nat) : User :=
  { id := freshId db
    username := username
    email := email
    password := bcryptHash password
    role := reqRole.getD .user
    isActive := reqIsActive.getD true
    emailVerified := reqIsActive.getD true
    updatedAt := now }

/-- `POST /api/admin/users` (`exports.createUser`): duplicate check, role
assignment permission check, then create with role defaulting to `user` and
`isActive`/`emailVerified` defaulting to `true`. -/
def adminCreateUser (db : List User) (actingRole : Role) (username email password : String)
    (reqRole : Option Role) (reqIsActive : Option Bool) (now : Nat) :
    ApiResponse × List User :=
  match db.find? (fun u => u.email == email || u.username == username) with
  | some _ =>
    ({ status := 400, success := false
       message := some "User already exists with that email or username" }, db)
  | none =>
    if !validateRoleAssignment actingRole reqRole then
      ({ status := 403, success := false
         message := some ("You don\x27t have permission to create a user with role: " ++
           showOptRole reqRole) }, db)
    else
      let newUser := adminCreatedUser db username email password reqRole reqIsActive now
      ({ status := 201, success := true, message := some "User created successfully"
         userPayload := some { id := newUser.id, username := username, email := email
                               role := newUser.role, isActive := some newUser.isActive } },
       db ++ [newUser])

/-- Role-change step of `exports.updateUser`: only when a role is supplied and
differs from the current one is the assignment permission checked. -/
def applyRoleChange (actingRole : Role) (u : User) (reqRole : Option Role) :
    Except ApiResponse User :=
  match reqRole with
  | none => .ok u
  | some r =>
    if r == u.role then .ok u
    else if validateRoleAssignment actingRole (some r) then .ok { u with role := r }
    else .error { status := 403, success := false
                  message := some ("You don\x27t have permission to assign the role: " ++
                    r.asString) }

/-- Username-change step of `exports.updateUser`. -/
def applyUsernameChange (db : List User) (u : User) (reqUsername : Option String) :
    Except ApiResponse User :=
  match reqUsername with
  | none => .ok u
  | some un =>
    if un == u.username then .ok u
    else
      match db.find? (fun v => v.username == un) with
      | some v =>
        if !(v.id == u.id) then
          .error { status := 400, success := false, message := some "Username is already taken" }
        else .ok { u with username := un }
      | none => .ok { u with username := un }

/-- Email-change step of `exports.updateUser`: a changed email resets
`emailVerified`. -/
def applyEmailChange (db : List User) (u : User) (reqEmail : Option String) :
    Except ApiResponse User :=
  match reqEmail with
  | none => .ok u
  | some em =>
    if em == u.email then .ok u
    else
      match db.find? (fun v => v.email == em) with
      | some v =>
        if !(v.id == u.id) then
          .error { status := 400, success := false, message := some "Email is already registered" }
        else .ok { u with email := em, emailVerified := false }
      | none => .ok { u with email := em, emailVerified := false }

/-- Active-flag step of `exports.updateUser` (the activation / deactivation
e-mails are best-effort and have no observable effect). -/
def applyActiveChange (u : User) (reqIsActive : Option Bool) : User :=
  match reqIsActive with
  | none => u
  | some b => { u with isActive := b }

/-- `PUT /api/admin/users/:id` (`exports.updateUser`): look up the target,
guard superadmin targets, then apply role / username / email / active-flag
changes in the order of the controller, saving at the end. -/
def adminUpdateUser (db : List User) (actingRole : Role) (targetId : Nat)
    (reqUsername reqEmail : Option String) (reqRole : Option Role) (reqIsActive : Option Bool)
    (now : Nat) : ApiResponse × List User :=
  match findById db targetId with
  | none => ({ status := 404, success := false, message := some "User not found" }, db)
  | some u =>
    if u.role == Role.superadmin && !(actingRole == Role.superadmin) then
      ({ status := 403, success := false, message := some "Not authorized to modify this user" },
       db)
    else
      match applyRoleChange actingRole u reqRole with
      | .error resp => (resp, db)
      | .ok u1 =>
        match applyUsernameChange db u1 reqUsername with
        | .error resp => (resp, db)
        | .ok u2 =>
          match applyEmailChange db u2 reqEmail with
          | .error resp => (resp, db)
          | .ok u3 =>
            let u4 := { applyActiveChange u3 reqIsActive with updatedAt := now }
            ({ status := 200, success := true, message := some "User updated successfully"
               userPayload := some { id := u4.id, username := u4.username, email := u4.email
                                     role := u4.role, isActive := some u4.isActive } },
             saveUser db u4)

/-- `DELETE /api/admin/users/:id` (`exports.deleteUser`): look up the target;
a superadmin or admin target may only be deleted by a superadmin; then the
self-deletion guard; then delete.  The notification e-mail is best-effort. -/
def adminDeleteUser (db : List User) (acting : User) (targetId : Nat) :
    ApiResponse × List User :=
  match findById db targetId with
  | none => ({ status := 404, success := false, message := some "User not found" }, db)
  | some u =>
    if (u.role == Role.superadmin || u.role == Role.admin) && !(acting.role == Role.superadmin) then
      ({ status := 403, success := false, message := some "Not authorized to delete this user" },
       db)
    else if u.id == acting.id then
      ({ status := 400, success := false, message := some "You cannot delete your own account" },
       db)
    else
      ({ status := 200, success := true, message := some "User deleted successfully" },
       deleteById db u.id)

/-! ### Basic lemmas about the collaborator models and store operations -/

theorem string_append_right_inj (p : String) {a b : String} (h : p ++ a = p ++ b) : a = b := by
  have hd := congrArg String.data h
  simp only [String.data_append] at hd
  exact String.ext (List.append_cancel_left hd)

theorem bcryptHash_injective : Function.Injective bcryptHash := by
  intro a b h
  exact string_append_right_inj _ h

theorem sha256Hex_injective : Function.Injective sha256Hex := by
  intro a b h
  exact string_append_right_inj _ h

theorem sha256Hex_ne_self (s : String) : sha256Hex s ≠ s := by
  intro h
  have hl := congrArg String.length h
  rw [sha256Hex, String.length_append, show ("sha256:" : String).length = 7 from rfl] at hl
  omega

theorem sha256Hex_ne_empty (s : String) : sha256Hex s ≠ "" := by
  intro h
  have hl := congrArg String.length h
  rw [sha256Hex, String.length_append, show ("sha256:" : String).length = 7 from rfl,
    show ("" : String).length = 0 from rfl] at hl
  omega

theorem findByEmail_singleton (v : User) (em : String) (h : v.email = em) :
    findByEmail [v] em = some v := by
  simp [findByEmail, List.find?, h]

theorem saveUser_singleton (v u : User) (h : u.id = v.id) : saveUser [v] u = [u] := by
  simp [saveUser, h]

/-! ### Branch lemmas for the login controller -/

theorem login_missing_user (tst otp : Bool) (db : List User) (em pw oc : String) (t : Nat)
    (h : findByEmail db em = none) :
    login tst otp db em pw oc t =
      ({ status := 401, success := false, message := some "Invalid credentials" }, db) := by
  simp [login, h]

theorem login_locked (tst otp : Bool) (db : List User) (v : User) (em pw oc : String) (t : Nat)
    (hf : findByEmail db em = some v) (hl : v.isAccountLocked t = true) :
    login tst otp db em pw oc t =
      ({ status := 401, success := false
         message := some "Account locked due to too many failed login attempts. Try again later."
         lockedUntil := v.lockedUntil }, db) := by
  simp [login, hf, hl]

theorem login_wrong_password (tst otp : Bool) (db : List User) (v : User) (em pw oc : String)
    (t : Nat) (hf : findByEmail db em = some v) (hl : v.isAccountLocked t = false)
    (hp : (bcryptHash pw == v.password) = false) :
    login tst otp db em pw oc t =
      ({ status := 401, success := false, message := some "Invalid credentials" },
       saveUser db (v.incrementLoginAttempts t)) := by
  simp [login, hf, hl, User.matchPassword, hp]

theorem login_not_active (otp : Bool) (db : List User) (v : User) (em pw oc : String) (t : Nat)
    (hf : findByEmail db em = some v) (hl : v.isAccountLocked t = false)
    (hp : (bcryptHash pw == v.password) = true) (ha : v.isActive = false) :
    login false otp db em pw oc t =
      ({ status := 403, success := false
         message := some "Account not activated. Please check your email for activation link." },
       db) := by
  simp [login, hf, hl, User.matchPassword, hp, ha]

theorem login_ok (db : List User) (v : User) (em pw oc : String) (t : Nat)
    (hf : findByEmail db em = some v) (hl : v.isAccountLocked t = false)
    (hp : (bcryptHash pw == v.password) = true) (ha : v.isActive = true) :
    login false false db em pw oc t =
      ({ status := 200, success := true, tokenFor := some v.id, refreshFor := some v.id
         userPayload := some { id := v.id, username := v.username, email := v.email
                               role := v.role } },
       saveUser db (v.resetLoginAttempts t)) := by
  simp [login, hf, hl, User.matchPassword, hp, ha]

/-! ### Scenario: lockout after consecutive failed attempts (C1) -/

/-- An activated account with a clean lockout state (counter 0, no lock), as
it stands after activation. -/
def activeUser (i : Nat) (un em pw : String) (r : Role) : User :=
  { id := i, username := un, email := em, password := bcryptHash pw, role := r
    isActive := true, emailVerified := true }

/-- Run one login attempt per listed instant, always with password `w`
(NODE_ENV is not "test", OTP disabled), keeping only the store. -/
def failedLoginRun (em w : String) : List User → List Nat → List User
  | db, [] => db
  | db, t :: ts => failedLoginRun em w (login false false db em w "" t).2 ts

/-- The account state right after the fifth consecutive failed attempt, the
fifth having happened at instant `t5`. -/
def lockedAccountState (i : Nat) (un em pw : String) (r : Role) (t5 : Nat) : User :=
  { activeUser i un em pw r with
    failedLoginAttempts := 5
    lockedUntil := some (t5 + lockoutDuration)
    updatedAt := t5 }

/-- Claim C1: after exactly 5 consecutive failed password attempts the account
has `failedLoginAttempts = 5` and `lockedUntil` set to the fifth instant plus
15 minutes; a 6th login attempt with the correct password while `lockedUntil`
is in the future fails as AccountLocked (401) carrying the unlock instant; and
once the lock window has elapsed a correct-password login succeeds and resets
`failedLoginAttempts` to 0 and `lockedUntil` to unset. -/
theorem lockout_after_five_failed_attempts (i : Nat) (un em pw w : String) (r : Role)
    (t1 t2 t3 t4 t5 t6 t7 : Nat) (hw : bcryptHash w ≠ bcryptHash pw)
    (h6 : t6 < t5 + lockoutDuration) (h7 : t5 + lockoutDuration ≤ t7) :
    failedLoginRun em w [activeUser i un em pw r] [t1, t2, t3, t4, t5]
        = [lockedAccountState i un em pw r t5] ∧
    login false false [lockedAccountState i un em pw r t5] em pw "" t6
        = ({ status := 401, success := false
             message := some "Account locked due to too many failed login attempts. Try again later."
             lockedUntil := some (t5 + lockoutDuration) },
           [lockedAccountState i un em pw r t5]) ∧
    login false false [lockedAccountState i un em pw r t5] em pw "" t7
        = ({ status := 200, success := true, tokenFor := some i, refreshFor := some i
             userPayload := some { id := i, username := un, email := em, role := r } },
           [{ activeUser i un em pw r with lastLogin := some t7, updatedAt := t7 }]) := by
  have hp : (bcryptHash w == bcryptHash pw) = false := beq_eq_false_iff_ne.mpr hw
  have step : ∀ (v : User) (t : Nat), v.email = em → v.password = bcryptHash pw →
      v.isAccountLocked t = false →
      login false false [v] em w "" t =
        ({ status := 401, success := false, message := some "Invalid credentials" },
         [v.incrementLoginAttempts t]) := by
    intro v t hem hpw hl
    rw [login_wrong_password false false [v] v em w "" t (findByEmail_singleton v em hem) hl
      (by rw [hpw]; exact hp),
      saveUser_singleton v (v.incrementLoginAttempts t) rfl]
  refine ⟨?_, ?_, ?_⟩
  · have e1 := step (activeUser i un em pw r) t1 rfl rfl rfl
    have e2 := step ((activeUser i un em pw r).incrementLoginAttempts t1) t2 rfl rfl rfl
    have e3 := step (((activeUser i un em pw r).incrementLoginAttempts t1).incrementLoginAttempts
      t2) t3 rfl rfl rfl
    have e4 := step ((((activeUser i un em pw r).incrementLoginAttempts
      t1).incrementLoginAttempts t2).incrementLoginAttempts t3) t4 rfl rfl rfl
    have e5 := step (((((activeUser i un em pw r).incrementLoginAttempts
      t1).incrementLoginAttempts t2).incrementLoginAttempts t3).incrementLoginAttempts t4) t5
      rfl rfl rfl
    show failedLoginRun em w (login false false [activeUser i un em pw r] em w "" t1).2
      [t2, t3, t4, t5] = _
    rw [e1]
    show failedLoginRun em w (login false false _ em w "" t2).2 [t3, t4, t5] = _
    rw [e2]
    show failedLoginRun em w (login false false _ em w "" t3).2 [t4, t5] = _
    rw [e3]
    show failedLoginRun em w (login false false _ em w "" t4).2 [t5] = _
    rw [e4]
    show (login false false _ em w "" t5).2 = _
    rw [e5]
    rfl
  · rw [login_locked false false [lockedAccountState i un em pw r t5]
      (lockedAccountState i un em pw r t5) em pw "" t6
      (findByEmail_singleton _ _ rfl)
      (by simp [lockedAccountState, activeUser, User.isAccountLocked, h6])]
    rfl
  · rw [login_ok [lockedAccountState i un em pw r t5] (lockedAccountState i un em pw r t5)
      em pw "" t7 (findByEmail_singleton _ _ rfl)
      (by simp [lockedAccountState, activeUser, User.isAccountLocked, Nat.not_lt.mpr h7])
      (by simp [lockedAccountState, activeUser]) rfl,
      saveUser_singleton (lockedAccountState i un em pw r t5)
        ((lockedAccountState i un em pw r t5).resetLoginAttempts t7) rfl]
    rfl

/-- Claim C1 witness: the lockout lifecycle at concrete inputs. -/
theorem lockout_after_five_failed_attempts_witness :
    bcryptHash "wrongpw" ≠ bcryptHash "secret1" ∧
    (5 : Nat) < 4 + lockoutDuration ∧ 4 + lockoutDuration ≤ 900004 ∧
    failedLoginRun "a@x.com" "wrongpw"
        [activeUser 1 "alice" "a@x.com" "secret1" Role.user] [0, 1, 2, 3, 4]
      = [lockedAccountState 1 "alice" "a@x.com" "secret1" Role.user 4] :=
  ⟨by decide, by decide, by decide,
    (lockout_after_five_failed_attempts 1 "alice" "a@x.com" "secret1" "wrongpw"
      Role.user 0 1 2 3 4 5 900004 (by decide) (by decide) (by decide)).1⟩

/-! ### Scenario: activation is exactly-once (C2) -/

theorem activateAccount_singleton_nomatch (v : User) (tok : String) (n : Nat)
    (h : (v.activationToken == some (sha256Hex tok) &&
      (match v.activationExpire with
       | some e => decide (n < e)
       | none => false)) = false) :
    activateAccount [v] tok n
      = ({ status := 400, success := false
           message := some "Invalid or expired activation token" }, [v]) := by
  simp [activateAccount, List.find?, h]

/-- Claim C2: with a stored activation-token hash and an unexpired expiry,
presenting the matching clear token activates and verifies the account,
clears both activation fields and issues a fresh session; afterwards (slot
cleared) replaying the same token fails InvalidOrExpiredToken, as does any
token whose hash matches no stored hash and any token whose expiry passed. -/
theorem activation_exactly_once (u : User) (tok : String) (e now : Nat)
    (hslot : u.activationToken = some (sha256Hex tok))
    (hexp : u.activationExpire = some e) (hnow : now < e) :
    activateAccount [u] tok now
      = ({ status := 200, success := true, message := some "Account activated successfully"
           tokenFor := some u.id, refreshFor := some u.id
           userPayload := some { id := u.id, username := u.username, email := u.email
                                 role := u.role } },
         [{ u with
            isActive := true, emailVerified := true, activationToken := none,
            activationExpire := none, updatedAt := now }]) ∧
    (∀ (tok2 : String) (n2 : Nat),
      activateAccount
        [{ u with
           isActive := true, emailVerified := true, activationToken := none,
           activationExpire := none, updatedAt := now }] tok2 n2
        = ({ status := 400, success := false
             message := some "Invalid or expired activation token" },
           [{ u with
              isActive := true, emailVerified := true, activationToken := none,
              activationExpire := none, updatedAt := now }])) ∧
    (∀ (v : User) (tok2 : String) (n : Nat),
      v.activationToken ≠ some (sha256Hex tok2) →
      activateAccount [v] tok2 n
        = ({ status := 400, success := false
             message := some "Invalid or expired activation token" }, [v])) ∧
    (∀ (v : User) (tok2 : String) (e2 n : Nat),
      v.activationExpire = some e2 → e2 ≤ n →
      activateAccount [v] tok2 n
        = ({ status := 400, success := false
             message := some "Invalid or expired activation token" }, [v])) := by
  refine ⟨?_, ?_, ?_, ?_⟩
  · have hfind : ([u].find? (fun v => v.activationToken == some (sha256Hex tok) &&
        (match v.activationExpire with
         | some e2 => decide (now < e2)
         | none => false))) = some u := by
      simp [List.find?, hslot, hexp, hnow]
    have hsave := saveUser_singleton u
      { u with
        isActive := true, emailVerified := true, activationToken := none,
        activationExpire := none, updatedAt := now } rfl
    simp only [activateAccount, hfind, hsave]
  · intro tok2 n2
    exact activateAccount_singleton_nomatch _ tok2 n2 rfl
  · intro v tok2 n hne
    exact activateAccount_singleton_nomatch v tok2 n
      (by rw [beq_eq_false_iff_ne.mpr hne]; exact Bool.false_and _)
  · intro v tok2 e2 n he hle
    exact activateAccount_singleton_nomatch v tok2 n
      (by simp [he, decide_eq_false (Nat.not_lt.mpr hle)])

/-- Concrete pending account used in witnesses. -/
def pendingBob : User :=
  { id := 2, username := "bob", email := "b@x.com", password := bcryptHash "pw1234"
    activationToken := some (sha256Hex "acttok"), activationExpire := some 1000 }

/-- Claim C2 witness: activating a concrete pending account succeeds, and
replaying the consumed token fails. -/
theorem activation_exactly_once_witness :
    pendingBob.activationToken = some (sha256Hex "acttok") ∧ (5 : Nat) < 1000 ∧
    (activateAccount [pendingBob] "acttok" 5).1.status = 200 ∧
    (activateAccount (activateAccount [pendingBob] "acttok" 5).2 "acttok" 6).1.status = 400 := by
  have h := activation_exactly_once pendingBob "acttok" 1000 5 rfl rfl (by decide)
  exact ⟨rfl, by decide, congrArg (fun p => p.1.status) h.1,
    congrArg (fun p => p.1.status) (h.2.1 "acttok" 6)⟩

/-! ### Scenario: registration creates a pending account (C3) -/

theorem find?_append_of_none {α : Type} (p : α → Bool) (l1 l2 : List α)
    (h : l1.find? p = none) : (l1 ++ l2).find? p = l2.find? p := by
  induction l1 with
  | nil => rfl
  | cons a l ih =>
    cases hpa : p a with
    | true => simp [List.find?, hpa] at h
    | false =>
      simp only [List.find?, hpa] at h
      simp only [List.cons_append, List.find?, hpa]
      exact ih h

/-- Claim C3: a valid registration (no other account with the same email or
username) creates an account with `isActive = false`, a stored non-empty
hashed activation secret that is not the clear token, and a bcrypt password
hash; and a correct-password login against the new account before activation
(outside the test environment) fails with AccountNotActive. -/
theorem register_creates_inactive_account (db : List User) (acting : Option User)
    (un em pw : String) (reqRole : Option Role) (tok : String) (now tL : Nat)
    (hfresh : db.find? (fun u => u.email == em || u.username == un) = none) :
    ∃ nu : User,
      register db acting un em pw reqRole tok now
        = ({ status := 201, success := true
             message := some "Registration successful. Please check your email to activate your account." },
           db ++ [nu]) ∧
      nu.isActive = false ∧
      nu.activationToken = some (sha256Hex tok) ∧
      sha256Hex tok ≠ "" ∧ sha256Hex tok ≠ tok ∧
      nu.password = bcryptHash pw ∧
      login false false (db ++ [nu]) em pw "" tL
        = ({ status := 403, success := false
             message := some "Account not activated. Please check your email for activation link." },
           db ++ [nu]) := by
  have hemail : db.find? (fun u => u.email == em) = none := by
    rw [List.find?_eq_none] at hfresh ⊢
    intro x hx hcontra
    exact hfresh x hx (by rw [Bool.or_eq_true]; exact Or.inl hcontra)
  refine ⟨registeredUser db acting un em pw reqRole tok now, ?_, rfl, rfl,
    sha256Hex_ne_empty tok, sha256Hex_ne_self tok, rfl, ?_⟩
  · simp only [register, hfresh]
  · have hf : findByEmail (db ++ [registeredUser db acting un em pw reqRole tok now]) em
        = some (registeredUser db acting un em pw reqRole tok now) := by
      rw [findByEmail, find?_append_of_none _ _ _ hemail]
      simp [List.find?, registeredUser]
    exact login_not_active false _ _ em pw "" tL hf rfl
      (by simp [registeredUser, User.matchPassword]) rfl

/-- Claim C3 witness: a concrete registration followed by a correct-password
login attempt before activation. -/
theorem register_creates_inactive_account_witness :
    ([] : List User).find? (fun u => u.email == "a@x.com" || u.username == "alice") = none ∧
    (register [] none "alice" "a@x.com" "secret1" (some Role.superadmin) "acttok" 0).1.status
      = 201 ∧
    (login false false
      (register [] none "alice" "a@x.com" "secret1" (some Role.superadmin) "acttok" 0).2
      "a@x.com" "secret1" "" 3).1.status = 403 := by
  obtain ⟨nu, h1, _, _, _, _, _, h7⟩ :=
    register_creates_inactive_account [] none "alice" "a@x.com" "secret1"
      (some Role.superadmin) "acttok" 0 3 rfl
  refine ⟨rfl, ?_, ?_⟩
  · rw [h1]
  · rw [h1]
    exact congrArg (fun p => p.1.status) h7

/-! ### Scenario: uniform login failures and fail-fast lock check (C4) -/

/-- Claim C4: an unknown-email login and a known-email wrong-password login
answer with the same InvalidCredentials response (identical message, not
revealing which field was wrong); and for a locked account the lock check
runs before the password check, so every submitted password yields the same
AccountLocked response carrying the unlock instant. -/
theorem login_failure_uniformity (tst otp : Bool) (db : List User) (em em2 pw oc : String)
    (t : Nat) (v : User) (hmiss : findByEmail db em = none)
    (hv : findByEmail db em2 = some v) :
    ((login tst otp db em pw oc t).1
        = { status := 401, success := false, message := some "Invalid credentials" }) ∧
    ((bcryptHash pw == v.password) = false → v.isAccountLocked t = false →
      (login tst otp db em2 pw oc t).1
        = { status := 401, success := false, message := some "Invalid credentials" }) ∧
    (∀ L, v.lockedUntil = some L → t < L →
      ∀ pw2, login tst otp db em2 pw2 oc t
        = ({ status := 401, success := false
             message := some "Account locked due to too many failed login attempts. Try again later."
             lockedUntil := some L }, db)) := by
  refine ⟨?_, ?_, ?_⟩
  · rw [login_missing_user tst otp db em pw oc t hmiss]
  · intro hp hl
    rw [login_wrong_password tst otp db v em2 pw oc t hv hl hp]
  · intro L hL hlt pw2
    rw [login_locked tst otp db v em2 pw2 oc t hv
      (by simp [User.isAccountLocked, hL, hlt]), hL]

/-- Concrete locked account used in witnesses. -/
def lockedCarol : User :=
  { id := 3, username := "carol", email := "c@x.com", password := bcryptHash "pw9999"
    isActive := true, lockedUntil := some 100 }

/-- Claim C4 witness: the uniform-failure properties at concrete inputs; in
particular a locked account answers identically to a correct and to a wrong
password. -/
theorem login_failure_uniformity_witness :
    findByEmail [lockedCarol] "nobody@x.com" = none ∧
    findByEmail [lockedCarol] "c@x.com" = some lockedCarol ∧
    login false false [lockedCarol] "c@x.com" "pw9999" "" 5
      = login false false [lockedCarol] "c@x.com" "bad" "" 5 := by
  have h := login_failure_uniformity false false [lockedCarol] "nobody@x.com" "c@x.com"
    "pw9999" "" 5 lockedCarol rfl rfl
  refine ⟨rfl, rfl, ?_⟩
  rw [h.2.2 100 rfl (by decide) "pw9999", h.2.2 100 rfl (by decide) "bad"]

/-! ### Scenario: forgot-password without account enumeration (C5) -/

/-- Claim C5: forgot-password answers 200 with the same success-shaped
response for an unknown email and for an existing account; for an existing
account it stores the hashed reset token with a 1-hour expiry; and if the
reset e-mail fails to send, the reset-token fields are rolled back to unset
and a 500 server error is returned instead of success. -/
theorem forgot_password_enumeration_safe (db : List User) (emA emB tok : String) (now : Nat)
    (u : User) (hmiss : findByEmail db emA = none) (hu : u.email = emB) :
    (∀ ok : Bool, forgotPassword db emA tok ok now
      = ({ status := 200, success := true
           message := some "If your email is registered, you will receive a password reset link" },
         db)) ∧
    forgotPassword [u] emB tok true now
      = ({ status := 200, success := true
           message := some "If your email is registered, you will receive a password reset link" },
         [{ u with
            resetPasswordToken := some (sha256Hex tok)
            resetPasswordExpire := some (now + passwordResetExpireMs)
            updatedAt := now }]) ∧
    forgotPassword [u] emB tok false now
      = ({ status := 500, success := false, message := some "Email could not be sent" },
         [{ u with
            resetPasswordToken := none
            resetPasswordExpire := none
            updatedAt := now }]) := by
  have hf := findByEmail_singleton u emB hu
  have hsave1 := saveUser_singleton u
    { u with
      resetPasswordToken := some (sha256Hex tok)
      resetPasswordExpire := some (now + passwordResetExpireMs)
      updatedAt := now } rfl
  refine ⟨?_, ?_, ?_⟩
  · intro ok
    simp only [forgotPassword, hmiss]
  · simp [forgotPassword, hf, hsave1]
  · have hsave2 := saveUser_singleton
      { u with
        resetPasswordToken := some (sha256Hex tok)
        resetPasswordExpire := some (now + passwordResetExpireMs)
        updatedAt := now }
      { u with
        resetPasswordToken := none
        resetPasswordExpire := none
        updatedAt := now } rfl
    simp [forgotPassword, hf, hsave1, hsave2]

/-- Concrete active account used in witnesses. -/
def resetDana : User :=
  { id := 4, username := "dana", email := "d@x.com", password := bcryptHash "pwabc"
    isActive := true }

/-- Claim C5 witness: identical success responses for a missing and an
existing email, and a 500 with rollback when the e-mail send fails. -/
theorem forgot_password_enumeration_safe_witness :
    findByEmail [resetDana] "nobody@x.com" = none ∧
    (forgotPassword [resetDana] "nobody@x.com" "rtok" true 10).1
      = (forgotPassword [resetDana] "d@x.com" "rtok" true 10).1 ∧
    (forgotPassword [resetDana] "d@x.com" "rtok" false 10).1.status = 500 := by
  have h := forgot_password_enumeration_safe [resetDana] "nobody@x.com" "d@x.com" "rtok" 10
    resetDana rfl rfl
  refine ⟨rfl, ?_, ?_⟩
  · rw [h.1 true, h.2.1]
  · rw [h.2.2]

/-! ### Scenario: password reset via token is single-use (C6) -/

theorem resetPassword_singleton_nomatch (v : User) (tok p2 : String) (n : Nat)
    (h : (v.resetPasswordToken == some (sha256Hex tok) &&
      (match v.resetPasswordExpire with
       | some e => decide (n < e)
       | none => false)) = false) :
    resetPassword [v] tok p2 n
      = ({ status := 400, success := false, message := some "Invalid or expired token" }, [v]) := by
  simp [resetPassword, List.find?, h]

theorem resetPassword_success_iff (v : User) (tk p2 : String) (n : Nat) :
    (resetPassword [v] tk p2 n).1.success = true ↔
      (v.resetPasswordToken = some (sha256Hex tk) ∧
       ∃ e2, v.resetPasswordExpire = some e2 ∧ n < e2) := by
  have key : ((v.resetPasswordToken == some (sha256Hex tk) &&
      (match v.resetPasswordExpire with
       | some e => decide (n < e)
       | none => false)) = true) ↔
      (v.resetPasswordToken = some (sha256Hex tk) ∧
       ∃ e2, v.resetPasswordExpire = some e2 ∧ n < e2) := by
    rw [Bool.and_eq_true, beq_iff_eq]
    apply and_congr_right
    intro _
    cases hE : v.resetPasswordExpire with
    | none => simp
    | some e2 => simp
  cases hc : (v.resetPasswordToken == some (sha256Hex tk) &&
      (match v.resetPasswordExpire with
       | some e => decide (n < e)
       | none => false)) with
  | false =>
    rw [resetPassword_singleton_nomatch v tk p2 n hc]
    rw [← key, hc]
  | true =>
    have hr := key.mp hc
    have hfind : ([v].find? (fun x => x.resetPasswordToken == some (sha256Hex tk) &&
        (match x.resetPasswordExpire with
         | some e => decide (n < e)
         | none => false))) = some v := by
      simp [List.find?, hc]
    obtain ⟨h1, e2, he2, hn⟩ := hr
    simp [resetPassword, hfind, h1, he2, hn]

/-- Claim C6: a password reset succeeds exactly when the supplied token's hash
matches the stored reset-token hash and the stored expiry is in the future
(otherwise it fails InvalidOrExpiredToken); on success the password hash is
replaced, the reset slot is cleared so replaying the same token fails, the
old password no longer authenticates while the new one does, and an inactive
account becomes active and email-verified. -/
theorem reset_password_single_use (u : User) (tok oldPw newPw : String) (e now : Nat)
    (hslot : u.resetPasswordToken = some (sha256Hex tok))
    (hexp : u.resetPasswordExpire = some e) (hnow : now < e)
    (hpw : u.password = bcryptHash oldPw) (hne : oldPw ≠ newPw) :
    (∃ u2 : User,
      resetPassword [u] tok newPw now
        = ({ status := 200, success := true, message := some "Password reset successful" },
           [u2]) ∧
      u2.password = bcryptHash newPw ∧
      u2.resetPasswordToken = none ∧ u2.resetPasswordExpire = none ∧
      u2.isActive = true ∧ (u.isActive = false → u2.emailVerified = true) ∧
      u2.matchPassword oldPw = false ∧ u2.matchPassword newPw = true ∧
      (∀ (p2 : String) (n2 : Nat),
        resetPassword [u2] tok p2 n2
          = ({ status := 400, success := false, message := some "Invalid or expired token" },
             [u2]))) ∧
    (∀ (v : User) (tk p2 : String) (n : Nat),
      (resetPassword [v] tk p2 n).1.success = true ↔
        (v.resetPasswordToken = some (sha256Hex tk) ∧
         ∃ e2, v.resetPasswordExpire = some e2 ∧ n < e2)) := by
  constructor
  · have hfind : ([u].find? (fun x => x.resetPasswordToken == some (sha256Hex tok) &&
        (match x.resetPasswordExpire with
         | some e2 => decide (now < e2)
         | none => false))) = some u := by
      simp [List.find?, hslot, hexp, hnow]
    have hmatch_old : (bcryptHash oldPw == bcryptHash newPw) = false :=
      beq_eq_false_iff_ne.mpr (fun hcontra => hne (bcryptHash_injective hcontra))
    cases hA : u.isActive with
    | true =>
      refine ⟨{ u with
          password := bcryptHash newPw
          resetPasswordToken := none
          resetPasswordExpire := none
          updatedAt := now }, ?_, rfl, rfl, rfl, hA, ?_, hmatch_old,
        beq_self_eq_true (bcryptHash newPw), ?_⟩
      · simp [resetPassword, hfind, hA]
        exact saveUser_singleton u _ rfl
      · intro hF
        exact absurd hF (by decide)
      · intro p2 n2
        exact resetPassword_singleton_nomatch _ tok p2 n2 rfl
    | false =>
      refine ⟨{ u with
          password := bcryptHash newPw
          resetPasswordToken := none
          resetPasswordExpire := none
          updatedAt := now
          isActive := true
          emailVerified := true }, ?_, rfl, rfl, rfl, rfl, fun _ => rfl, hmatch_old,
        beq_self_eq_true (bcryptHash newPw), ?_⟩
      · simp [resetPassword, hfind, hA]
        exact saveUser_singleton u _ rfl
      · intro p2 n2
        exact resetPassword_singleton_nomatch _ tok p2 n2 rfl
  · intro v tk p2 n
    exact resetPassword_success_iff v tk p2 n

/-- Concrete inactive account with a pending reset token, used in witnesses. -/
def resetEve : User :=
  { id := 5, username := "eve", email := "eve@x.com", password := bcryptHash "oldpw1"
    resetPasswordToken := some (sha256Hex "rtok"), resetPasswordExpire := some 500 }

/-- Claim C6 witness: a concrete reset succeeds once and the replayed token
fails. -/
theorem reset_password_single_use_witness :
    resetEve.resetPasswordToken = some (sha256Hex "rtok") ∧ (7 : Nat) < 500 ∧
    "oldpw1" ≠ "newpw2" ∧
    (resetPassword [resetEve] "rtok" "newpw2" 7).1.status = 200 ∧
    (resetPassword (resetPassword [resetEve] "rtok" "newpw2" 7).2 "rtok" "again" 8).1.status
      = 400 := by
  obtain ⟨⟨u2, h1, _, _, _, _, _, _, _, h9⟩, _⟩ :=
    reset_password_single_use resetEve "rtok" "oldpw1" "newpw2" 500 7 rfl rfl (by decide) rfl
      (by decide)
  refine ⟨rfl, by decide, by decide, ?_, ?_⟩
  · rw [h1]
  · rw [h1]
    exact congrArg (fun p => p.1.status) (h9 "again" 8)

/-! ### Scenario: role assignment containment (C7) -/

theorem findById_singleton (v : User) : findById [v] v.id = some v := by
  simp [findById, List.find?]

/-- Claim C7: role assignment is contained by the caller's role: a superadmin
caller can create an account with any requested role and change any (here:
user-role) account to any role; an admin caller may assign only user and
admin, and an admin attempt to create or update an account with role
superadmin fails with Forbidden (403) while the same operation by a
superadmin succeeds. -/
theorem role_assignment_contained (db : List User) (un em pw : String)
    (act : Option Bool) (now : Nat)
    (hfresh : db.find? (fun x => x.email == em || x.username == un) = none)
    (u : User) (hu : u.role = Role.user) :
    (∀ r : Option Role, (adminCreateUser db Role.superadmin un em pw r act now).1.status = 201) ∧
    adminCreateUser db Role.admin un em pw (some Role.superadmin) act now
      = ({ status := 403, success := false
           message := some "You don\x27t have permission to create a user with role: superadmin" },
         db) ∧
    (adminCreateUser db Role.admin un em pw (some Role.user) act now).1.status = 201 ∧
    (adminCreateUser db Role.admin un em pw (some Role.admin) act now).1.status = 201 ∧
    adminUpdateUser [u] Role.admin u.id none none (some Role.superadmin) none now
      = ({ status := 403, success := false
           message := some "You don\x27t have permission to assign the role: superadmin" },
         [u]) ∧
    adminUpdateUser [u] Role.superadmin u.id none none (some Role.superadmin) none now
      = ({ status := 200, success := true, message := some "User updated successfully"
           userPayload := some { id := u.id, username := u.username, email := u.email
                                 role := Role.superadmin, isActive := some u.isActive } },
         [{ u with role := Role.superadmin, updatedAt := now }]) ∧
    (∀ r : Role,
      (adminUpdateUser [u] Role.superadmin u.id none none (some r) none now).1.status = 200) := by
  have hfid : findById [u] u.id = some u := findById_singleton u
  refine ⟨?_, ?_, ?_, ?_, ?_, ?_, ?_⟩
  · intro r
    simp only [adminCreateUser, hfresh]
    rfl
  · simp only [adminCreateUser, hfresh]
    rfl
  · simp only [adminCreateUser, hfresh]
    rfl
  · simp only [adminCreateUser, hfresh]
    rfl
  · simp only [adminUpdateUser, hfid, applyRoleChange, hu]
    rfl
  · have hv : validateRoleAssignment Role.superadmin (some Role.superadmin) = true := rfl
    simp [adminUpdateUser, hfid, applyRoleChange, applyUsernameChange, applyEmailChange,
      applyActiveChange, hu, hv]
    exact saveUser_singleton u _ rfl
  · intro r
    have hv : validateRoleAssignment Role.superadmin (some r) = true := rfl
    cases hr : (r == u.role) <;>
      simp [adminUpdateUser, hfid, applyRoleChange, applyUsernameChange, applyEmailChange,
        applyActiveChange, hr, hv]

/-- Claim C7 witness: role containment at concrete inputs. -/
theorem role_assignment_contained_witness :
    (adminCreateUser [] Role.admin "nina" "n@x.com" "pw123" (some Role.superadmin) none 0).1.status
      = 403 ∧
    (adminCreateUser [] Role.superadmin "nina" "n@x.com" "pw123" (some Role.superadmin) none
      0).1.status = 201 ∧
    (adminUpdateUser [resetDana] Role.admin resetDana.id none none (some Role.superadmin) none
      9).1.status = 403 ∧
    (adminUpdateUser [resetDana] Role.superadmin resetDana.id none none (some Role.superadmin)
      none 9).1.status = 200 := by
  have h := role_assignment_contained [] "nina" "n@x.com" "pw123" none 0 rfl resetDana rfl
  exact ⟨congrArg (fun p => p.1.status) h.2.1, h.1 (some Role.superadmin),
    congrArg (fun p => p.1.status) h.2.2.2.2.1,
    congrArg (fun p => p.1.status) h.2.2.2.2.2.1⟩

/-! ### Scenario: self-deletion (C8) -/

/-- Concrete active admin account used in the self-deletion counterexample. -/
def adminCarl : User :=
  { id := 7, username := "carl", email := "carl@x.com", password := bcryptHash "pwcarl"
    role := Role.admin, isActive := true }

/-- Claim C8 counterexample: an admin deleting their own account fails with
403 Forbidden — the role-hierarchy check on admin targets fires before the
self-deletion check — not with a 400-class Conflict/ValidationError as the
claim states for every caller role. -/
theorem self_delete_400_counterexample :
    (adminDeleteUser [adminCarl] adminCarl adminCarl.id).1.status = 403 ∧
    ¬ (adminDeleteUser [adminCarl] adminCarl adminCarl.id).1.status = 400 := by decide

/-- Claim C8 (amended): self-deletion always fails and the account is not
deleted, for every caller role; a superadmin or user-role caller gets the 400
"You cannot delete your own account" error, but an admin caller is rejected
earlier by the role-hierarchy check with 403 Forbidden. -/
theorem self_delete_always_fails (db : List User) (a : User)
    (h : findById db a.id = some a) :
    (adminDeleteUser db a a.id).1.success = false ∧
    (adminDeleteUser db a a.id).2 = db ∧
    (a.role = Role.admin → (adminDeleteUser db a a.id).1.status = 403) ∧
    (a.role ≠ Role.admin → (adminDeleteUser db a a.id).1.status = 400) := by
  refine ⟨?_, ?_, fun hadm => ?_, fun hnadm => ?_⟩
  · cases hr : a.role <;> simp [adminDeleteUser, h, hr]
  · cases hr : a.role <;> simp [adminDeleteUser, h, hr]
  · simp [adminDeleteUser, h, hadm]
  · cases hr : a.role with
    | user => simp [adminDeleteUser, h, hr]
    | admin => exact absurd hr hnadm
    | superadmin => simp [adminDeleteUser, h, hr]

/-- Concrete active superadmin account used in witnesses. -/
def superSam : User :=
  { id := 9, username := "sam", email := "sam@x.com", password := bcryptHash "pwsam"
    role := Role.superadmin, isActive := true }

/-- Claim C8 witness (amended claim): a concrete superadmin self-deletion
fails with 400 and leaves the store unchanged. -/
theorem self_delete_always_fails_witness :
    findById [superSam] superSam.id = some superSam ∧
    (adminDeleteUser [superSam] superSam superSam.id).1.status = 400 ∧
    (adminDeleteUser [superSam] superSam superSam.id).2 = [superSam] := by
  have h := self_delete_always_fails [superSam] superSam rfl
  exact ⟨rfl, h.2.2.2 (by decide), h.2.1⟩

/-! ### Scenario: the public register route cannot set a role (C9) -/

/-- Claim C9 (implicit): the public register endpoint attaches no
authentication middleware, so the controller runs with `req.user` undefined
and the acting-user condition guarding role assignment is never satisfied:
the created account's role is `user` regardless of the role field in the
body, and two requests differing only in the role field produce the same
result. -/
theorem public_register_forces_user_role (db : List User) (un em pw tok : String)
    (r1 r2 : Option Role) (now : Nat)
    (hfresh : db.find? (fun x => x.email == em || x.username == un) = none) :
    registerRoute db un em pw r1 tok now = registerRoute db un em pw r2 tok now ∧
    ∃ nu : User,
      (registerRoute db un em pw r1 tok now).2 = db ++ [nu] ∧ nu.role = Role.user := by
  constructor
  · rfl
  · refine ⟨registeredUser db none un em pw r1 tok now, ?_, rfl⟩
    simp only [registerRoute, register, hfresh]

/-- Claim C9 witness: a concrete registration asking for role superadmin
behaves exactly like one asking for no role and creates a user-role account. -/
theorem public_register_forces_user_role_witness :
    registerRoute [] "zoe" "z@x.com" "pwzoe1" (some Role.superadmin) "tk" 0
      = registerRoute [] "zoe" "z@x.com" "pwzoe1" none "tk" 0 ∧
    ∃ nu : User,
      (registerRoute [] "zoe" "z@x.com" "pwzoe1" (some Role.superadmin) "tk" 0).2
        = [] ++ [nu] ∧ nu.role = Role.user :=
  public_register_forces_user_role [] "zoe" "z@x.com" "pwzoe1" "tk" (some Role.superadmin)
    none 0 rfl

/-! ### Scenario: admin create without an explicit role (C10) -/

/-- Claim C10 (implicit): an admin-create-user request with the role field
omitted fails with Forbidden for an admin caller — `validateRoleAssignment`
evaluates the undefined target role against {user, admin} and rejects it,
even though the created account would have defaulted to role `user` — while
the same request by a superadmin caller succeeds and creates a user-role
account. -/
theorem admin_create_without_role (db : List User) (un em pw : String)
    (act : Option Bool) (now : Nat)
    (hfresh : db.find? (fun x => x.email == em || x.username == un) = none) :
    adminCreateUser db Role.admin un em pw none act now
      = ({ status := 403, success := false
           message := some "You don\x27t have permission to create a user with role: undefined" },
         db) ∧
    adminCreateUser db Role.superadmin un em pw none act now
      = ({ status := 201, success := true, message := some "User created successfully"
           userPayload := some { id := freshId db, username := un, email := em
                                 role := Role.user, isActive := some (act.getD true) } },
         db ++ [adminCreatedUser db un em pw none act now]) ∧
    (adminCreatedUser db un em pw none act now).role = Role.user := by
  refine ⟨?_, ?_, rfl⟩
  · simp only [adminCreateUser, hfresh]
    rfl
  · simp only [adminCreateUser, hfresh]
    rfl

/-- Claim C10 witness: the omitted-role behaviour at concrete inputs. -/
theorem admin_create_without_role_witness :
    (adminCreateUser [] Role.admin "pat" "p@x.com" "pwpat1" none none 0).1.status = 403 ∧
    (adminCreateUser [] Role.superadmin "pat" "p@x.com" "pwpat1" none none 0).1.status = 201 := by
  have h := admin_create_without_role [] "pat" "p@x.com" "pwpat1" none 0 rfl
  exact ⟨congrArg (fun p => p.1.status) h.1, congrArg (fun p => p.1.status) h.2.1⟩

end AuthService
